import Mathlib

/-!
Verification of the timeline-chart engine of GPWMDCounterDisinfo.github.io.

The repository ships two largely duplicated implementations of the same
timeline logic:
  * the gesture-aware clamped variant (src/unnamed/part_000), which owns
    clampDomain, a module-level FULL_EXTENT, a 30-day MIN_SPAN_MS, and the
    offset-caching setDomainAndRedraw helper; and
  * a legacy variant (src/scripts/app.js), which clamps against the extent
    of the currently filtered subset and enforces a 1-day minimum span.

Timestamps and pixel coordinates (JS numbers) are modelled as rationals.
All definitions below are transcribed from the JavaScript source; the file
and line references in the comments point into the repository.  The file
lists all definitions first and all theorems afterwards.
-/

/-! ## Definitions: domain clamping (src/unnamed/part_000 lines 76-106) -/

/-- Thirty days in milliseconds (MIN_SPAN_MS, src/unnamed/part_000 line 39). -/
def MIN_SPAN_MS : ℚ := 1000 * 60 * 60 * 24 * 30

/-- One day in milliseconds (the minZoomSpan literal of src/scripts/app.js
lines 631 and 685). -/
def DAY_MS : ℚ := 1000 * 60 * 60 * 24

/-- Stage two of clampDomain (src/unnamed/part_000 lines 83-91): translate
the window to keep it inside the bounds while preserving the proposed span.
The JS mutates start and end under two successive ifs, the second of which
reads the values written by the first. -/
def clampKeepInside (lo hi span s0 e0 : ℚ) : ℚ × ℚ :=
  let s1 := if s0 < lo then lo else s0
  let e1 := if s0 < lo then lo + span else e0
  if hi < e1 then (hi - span, hi) else (s1, e1)

/-- Stage three of clampDomain (src/unnamed/part_000 lines 93-94): the
safety swap of inverted endpoints. -/
def clampSwap (p : ℚ × ℚ) : ℚ × ℚ :=
  if p.2 < p.1 then (p.2, p.1) else p

/-- Stage four of clampDomain (src/unnamed/part_000 lines 96-104): enforce
the minimum zoom window by recentring on the midpoint, then clamp the
recentred window back to the dataset bounds. -/
def clampEnforceMin (lo hi : ℚ) (p : ℚ × ℚ) : ℚ × ℚ :=
  if p.2 - p.1 < MIN_SPAN_MS then
    let mid := (p.1 + p.2) / 2
    let s4 := if mid - MIN_SPAN_MS / 2 < lo then lo else mid - MIN_SPAN_MS / 2
    let e4 := if mid - MIN_SPAN_MS / 2 < lo then lo + MIN_SPAN_MS else mid + MIN_SPAN_MS / 2
    if hi < e4 then (hi - MIN_SPAN_MS, hi) else (s4, e4)
  else p

/-- Transcription of clampDomain (src/unnamed/part_000 lines 76-106).
The argument prop is the proposed window as a pair (start, end), bnds the
dataset bounds as a pair (min, max).  The body chains the stages exactly
as the JS does: snap-to-full-extent, translate into bounds, safety swap,
minimum-span enforcement. -/
def clampDomain (prop bnds : ℚ × ℚ) : ℚ × ℚ :=
  let span := prop.2 - prop.1
  -- if trying to show more than exists, snap to full extent
  if bnds.2 - bnds.1 ≤ span then (bnds.1, bnds.2)
  else
    clampEnforceMin bnds.1 bnds.2
      (clampSwap (clampKeepInside bnds.1 bnds.2 span prop.1 prop.2))

/-! ## Definitions: zoomBy and the wheel handler -/

/-- Outcome of one zoomBy call: either a bare JS return (which leaves the
current domain untouched and triggers no redraw), or a call of
setDomainAndRedraw with a new domain and repack flag. -/
inductive ZoomOutcome where
  | earlyReturn : ZoomOutcome
  | applyDomain (s e : ℚ) (repack : Bool) : ZoomOutcome
deriving DecidableEq

/-- Behaviour of d3.extent on a list of dates: the pair (minimum, maximum).
Both zoomBy variants guard against an empty filtered list before the
extent is used, so the value at the empty list is irrelevant. -/
def d3extentPair : List ℚ → ℚ × ℚ
  | [] => (0, 0)
  | x :: xs => (xs.foldl min x, xs.foldl max x)

/-- Bounds selection of zoomBy in the gesture-aware variant
(src/unnamed/part_000 line 922): the module state FULL_EXTENT when set,
otherwise the extent of the filtered data. -/
def zoomByBounds (fullExtent : Option (ℚ × ℚ)) (filtered : List ℚ) : ℚ × ℚ :=
  fullExtent.getD (d3extentPair filtered)

/-- Proposal step of zoomBy (src/unnamed/part_000 lines 914-932 and
src/scripts/app.js lines 675-691): a window of the given span about the
center, snapped to the full bounds when wider than them. -/
def zoomSnap (lo hi span center : ℚ) : ℚ × ℚ :=
  let ns0 := center - span / 2
  let ne0 := center + span / 2
  if hi - lo < ne0 - ns0 then (lo, hi) else (ns0, ne0)

/-- Translation step of zoomBy (src/unnamed/part_000 lines 934-942 and
src/scripts/app.js lines 693-701): keep the window inside the bounds,
shifting by the proposed span just as the JS does. -/
def zoomKeepInside (lo hi span : ℚ) (p : ℚ × ℚ) : ℚ × ℚ :=
  let s2 := if p.1 < lo then lo else p.1
  let e2 := if p.1 < lo then lo + span else p.2
  if hi < e2 then (hi - span, hi) else (s2, e2)

/-- Domain arithmetic shared verbatim by the two zoomBy variants
(src/unnamed/part_000 lines 909-951 with minSpan = MIN_SPAN_MS, and
src/scripts/app.js lines 668-729 with minSpan = DAY_MS): propose a window
of span (d1 - d0) / factor about the anchor (defaulting to the domain
midpoint), snap and translate it into the bounds, and reject the result
outright when it is narrower than minSpan. -/
def zoomByCore (lo hi minSpan d0 d1 factor : ℚ) (anchor : Option ℚ) : ZoomOutcome :=
  let center := anchor.getD ((d0 + d1) / 2)
  let span := (d1 - d0) / factor
  let p := zoomKeepInside lo hi span (zoomSnap lo hi span center)
  if p.2 - p.1 < minSpan then ZoomOutcome.earlyReturn
  else ZoomOutcome.applyDomain p.1 p.2 true

/-- zoomBy of the gesture-aware variant (src/unnamed/part_000 lines
909-951): guard on a live scale and nonempty filtered data, clamp against
FULL_EXTENT (falling back to the filtered extent only when FULL_EXTENT is
unset), enforce MIN_SPAN_MS, and apply with repack. -/
def zoomBy (hasScale : Bool) (filtered : List ℚ) (fullExtent : Option (ℚ × ℚ))
    (d0 d1 factor : ℚ) (anchor : Option ℚ) : ZoomOutcome :=
  if hasScale = false ∨ filtered.length = 0 then ZoomOutcome.earlyReturn
  else
    let ext := zoomByBounds fullExtent filtered
    zoomByCore ext.1 ext.2 MIN_SPAN_MS d0 d1 factor anchor

/-- zoomBy of the legacy variant (src/scripts/app.js lines 668-729): same
shape, but the clamp bounds are always the extent of the currently
filtered subset and the minimum span is one day. -/
def appJs_zoomBy (hasScale : Bool) (filtered : List ℚ) (d0 d1 factor : ℚ)
    (anchor : Option ℚ) : ZoomOutcome :=
  if hasScale = false ∨ filtered.length = 0 then ZoomOutcome.earlyReturn
  else
    let ext := d3extentPair filtered
    zoomByCore ext.1 ext.2 DAY_MS d0 d1 factor anchor

/-- Wheel factor (src/unnamed/part_000 line 815 and src/scripts/app.js
line 605): positive deltaY selects 1.1, otherwise 0.9. -/
def wheelFactor (deltaY : ℚ) : ℚ := if 0 < deltaY then 11 / 10 else 9 / 10

/-- Guarded factor k of the gesture-aware wheel handler
(src/unnamed/part_000 line 816). -/
def wheelK (deltaY : ℚ) : ℚ := max (1 / 10000) (min 1000 (wheelFactor deltaY))

/-- Pre-clamp proposed window of the gesture-aware wheel handler
(src/unnamed/part_000 lines 818-820): scale both distances from the anchor
date a by k. -/
def wheelProposed (deltaY a d0 d1 : ℚ) : ℚ × ℚ :=
  (a - (a - d0) * wheelK deltaY, a + (d1 - a) * wheelK deltaY)

/-- Pre-clamp proposed span of the legacy wheel handler
(src/scripts/app.js line 610): the current span DIVIDED by the factor. -/
def appJsWheelNewSpan (deltaY d0 d1 : ℚ) : ℚ := (d1 - d0) / wheelFactor deltaY

/-! ## Definitions: reprojection after a domain change -/

/-- Per-event layout cache of the gesture-aware variant: the event date and
the xOffset and ySim fields written after a relaxation run
(src/unnamed/part_000 lines 717-720). -/
structure Ev where
  date : ℚ
  xOffset : ℚ
  ySim : ℚ
deriving DecidableEq

/-- d3.scaleTime with domain [s, e] and range [r0, r1]: the affine map used
for idealX positions. -/
def scaleX (s e r0 r1 t : ℚ) : ℚ := r0 + (t - s) / (e - s) * (r1 - r0)

/-- Transcription of setDomainAndRedraw (src/unnamed/part_000 lines
550-579).  The external d3 force simulation is abstracted as simOut, the
per-node (x, y) it would produce; with repack the caches are refreshed
from it (ySim from y, xOffset as x minus the new idealX), without repack
they are left untouched.  The second component lists the screen positions
assigned to the circles: the new idealX plus the cached offset, and the
cached ySim. -/
def setDomainAndRedraw (repack : Bool) (simOut : Ev → ℚ × ℚ) (s e r0 r1 : ℚ)
    (evs : List Ev) : List Ev × List (ℚ × ℚ) :=
  let evs2 :=
    if repack then
      evs.map (fun d =>
        { d with ySim := (simOut d).2, xOffset := (simOut d).1 - scaleX s e r0 r1 d.date })
    else evs
  (evs2, evs2.map (fun d => (scaleX s e r0 r1 d.date + d.xOffset, d.ySim)))


/-! ## Definitions: key-event label stacking (drawAnnotations) -/

/-- Label padding of drawAnnotations (src/unnamed/part_000 line 963). -/
def labelPadding : ℚ := 4

/-- Key event as seen by the label stacker: its date and its title. -/
structure AnnoEvent where
  date : ℚ
  event : String
deriving DecidableEq

/-- A reserved label slot as pushed onto placedLabels
(src/unnamed/part_000 line 979): the PADDED horizontal extent and the row
(level). -/
structure Placed where
  x1 : ℚ
  x2 : ℚ
  level : ℕ
deriving DecidableEq

/-- Label text truncation (src/unnamed/part_000 line 972): titles longer
than fifty characters are cut and suffixed with an ellipsis character. -/
def labelText (s : String) : String :=
  if 50 < s.length then (s.take 50).push '…' else s

/-- The row-conflict test of the while loop (src/unnamed/part_000 line
978): a row lvl is rejected when some stored label has that level and its
padded extent overlaps the new label's UNPADDED extent from a1 to a2. -/
def conflictAt (placed : List Placed) (a1 a2 : ℚ) (lvl : ℕ) : Bool :=
  placed.any fun l => !(decide (a2 < l.x1) || decide (a1 > l.x2) || decide (lvl ≠ l.level))

/-- Fuelled form of the while loop searching the first conflict-free row.
A conflict at a row needs a stored label on that row, so some row in
0..placed.length is free and fuel placed.length + 1 makes the search
return exactly what the unbounded JS loop returns. -/
def findLevelGo (placed : List Placed) (a1 a2 : ℚ) : ℕ → ℕ → ℕ
  | 0, lvl => lvl
  | fuel + 1, lvl =>
    if conflictAt placed a1 a2 lvl then findLevelGo placed a1 a2 fuel (lvl + 1) else lvl

/-- Entry point of the row search: start at row 0 with enough fuel. -/
def findLevel (placed : List Placed) (a1 a2 : ℚ) : ℕ :=
  findLevelGo placed a1 a2 (placed.length + 1) 0

/-- One iteration of the stacking loop (src/unnamed/part_000 lines
966-979): estimate the label pixel width as seven per character of the
truncated title, compute the unpadded extent about the scaled x position,
find the first free row, and reserve the padded extent on it. -/
def placeStep (x : ℚ → ℚ) (placed : List Placed) (d : AnnoEvent) : List Placed :=
  let xPos := x d.date
  let w : ℚ := (((labelText d.event).length * 7 : ℕ) : ℚ)
  let a1 := xPos - w / 2
  let a2 := xPos + w / 2
  let lvl := findLevel placed a1 a2
  placed ++ [⟨a1 - labelPadding, a2 + labelPadding, lvl⟩]

/-- The label stacker of drawAnnotations (src/unnamed/part_000 lines
963-981), applied to the key events already sorted ascending by date: fold
the stacking loop over the events in order, starting from an empty
reservation list. -/
def placeLabels (x : ℚ → ℚ) (evs : List AnnoEvent) : List Placed :=
  evs.foldl (placeStep x) []

/-- Verification predicate (not from the source): the separation that the
stacking loop actually guarantees between two labels placed on the same
row — the later label's UNPADDED extent clears the earlier label's padded
extent. -/
def RowSep (p q : Placed) : Prop :=
  p.level = q.level → (q.x2 - labelPadding < p.x1 ∨ p.x2 < q.x1 + labelPadding)

/-! ## Definitions: the filter pipeline (updateChart) -/

/-- Lower-casing as used on titles and notes before the substring search
(src/unnamed/part_000 lines 470-472). -/
def toLower (s : String) : String := s.map Char.toLower

/-- JS String.includes: the needle occurs contiguously in the haystack. -/
def containsSub (hay needle : String) : Bool := decide (needle.data <:+: hay.data)

/-- One CSV row after parsing (src/unnamed/part_000 lines 262-280),
restricted to the fields the filter reads. -/
structure Rec where
  date : ℚ
  event : String
  notes : String
  displaySource : String
  categories : List String
  validTopics : List String
  keyEvent : Bool
deriving DecidableEq

/-- The filter criteria updateChart reads from the page
(src/unnamed/part_000 lines 383-430): the legend selection set, the
selected topic and source values, the option counts of the two dropdown
menus, the key-events-only toggle and the lower-cased search term. -/
structure Crit where
  selectedCats : List String
  selectedTopics : List String
  selectedSources : List String
  topicListCount : ℕ
  sourceListCount : ℕ
  onlyKeyEvents : Bool
  searchTerm : String
deriving DecidableEq

/-- Clause 1 of the record predicate (src/unnamed/part_000 lines 436-441):
category match driven by the legend toggles. -/
def catMatchB (activeCats : List String) (d : Rec) : Bool :=
  if activeCats.length == 0 then false
  else if 1 < d.categories.length then activeCats.contains "multi"
  else d.categories.any (fun c => activeCats.contains c)

/-- Clause 3 of the record predicate (src/unnamed/part_000 lines 446-454):
topic match, bypassed when the dropdown has no options, empty when nothing
is selected, all-pass when everything is selected. -/
def topicMatchB (useTopic : Bool) (selTopics : List String) (isAll : Bool) (d : Rec) :
    Bool :=
  if useTopic then
    if selTopics.length == 0 then false
    else if !isAll then
      (d.validTopics.length != 0) && d.validTopics.any (fun t => selTopics.contains t)
    else true
  else true

/-- Clause 4 of the record predicate (src/unnamed/part_000 lines 456-463):
source match, symmetric to the topic clause on the single source string. -/
def sourceMatchB (useSource : Bool) (selSources : List String) (isAll : Bool) (d : Rec) :
    Bool :=
  if useSource then
    if selSources.length == 0 then false
    else if !isAll then (d.displaySource != "") && selSources.contains d.displaySource
    else true
  else true

/-- Clause 6 of the record predicate (src/unnamed/part_000 lines 469-472):
case-insensitive substring search over title and notes; an empty search
passes everything. -/
def searchMatchB (s : String) (d : Rec) : Bool :=
  (s == "") || ((d.event != "") && containsSub (toLower d.event) s) ||
    ((d.notes != "") && containsSub (toLower d.notes) s)

/-- The full record predicate of updateChart (src/unnamed/part_000 lines
433-474): category, key-event gating, topic, source, key-events-only and
search clauses must all hold. -/
def recPasses (activeCats : List String) (selKey : Bool) (useTopic : Bool)
    (selTopics : List String) (isAllTopics : Bool) (useSource : Bool)
    (selSources : List String) (isAllSources : Bool) (onlyKey : Bool) (s : String)
    (d : Rec) : Bool :=
  catMatchB activeCats d && (selKey || !d.keyEvent) &&
    topicMatchB useTopic selTopics isAllTopics d &&
    sourceMatchB useSource selSources isAllSources d &&
    (!onlyKey || d.keyEvent) && searchMatchB s d

/-- The pure core of updateChart (src/unnamed/part_000 lines 383-480):
compute the fallback topic and source lists, detect empty dropdowns and
the select-all states, short-circuit to the empty result when no legend
category is active and key events are off, and otherwise filter the raw
records through the six-clause predicate. -/
def updateChartFiltered (raw : List Rec) (c : Crit) : List Rec :=
  let allTopics := ((raw.map (fun d => d.validTopics)).join.filter (fun t => t != "")).dedup
  let allSources := ((raw.map (fun d => d.displaySource)).filter (fun s => s != "")).dedup
  let useTopic : Bool := decide (0 < c.topicListCount)
  let useSource : Bool := decide (0 < c.sourceListCount)
  let selTopics := if useTopic then c.selectedTopics else allTopics
  let selSources := if useSource then c.selectedSources else allSources
  let activeCats := ["biological", "chemical", "multi"].filter
    (fun k => c.selectedCats.contains k)
  if (activeCats.length == 0) && !(c.selectedCats.contains "key") then []
  else
    let isAllTopics : Bool := if useTopic then selTopics.length == c.topicListCount else true
    let isAllSources : Bool :=
      if useSource then selSources.length == c.sourceListCount else true
    raw.filter (fun d =>
      recPasses activeCats (c.selectedCats.contains "key") useTopic selTopics isAllTopics
        useSource selSources isAllSources c.onlyKeyEvents c.searchTerm d)

/-- Concrete record with one valid topic, used by the filter witnesses. -/
def recTopical : Rec :=
  ⟨0, "alpha event", "some notes", "src one", ["biological"], ["mistrust"], false⟩

/-- Concrete record with no valid topics, used by the filter witnesses. -/
def recTopicless : Rec :=
  ⟨1, "beta event", "other notes", "src two", ["chemical"], [], true⟩

/-- Criteria with no legend category active and key events off. -/
def critNothing : Crit := ⟨[], ["mistrust"], ["src one", "src two"], 1, 2, false, ""⟩

/-- Criteria with every legend key on and the single topic option selected. -/
def critAllTopics : Crit :=
  ⟨["biological", "chemical", "multi", "key"], ["mistrust"], [], 1, 0, false, ""⟩

/-! ## Theorems -/

/-- Helper: on a non-degenerate proposed window whose span fits strictly
inside the bounds, the translation stage lands inside the bounds and
preserves the span. -/
theorem clampKeepInside_spec (lo hi span s0 e0 : ℚ) (hspan : span = e0 - s0)
    (hlt : span < hi - lo) :
    lo ≤ (clampKeepInside lo hi span s0 e0).1 ∧
    (clampKeepInside lo hi span s0 e0).2 ≤ hi ∧
    (clampKeepInside lo hi span s0 e0).2 - (clampKeepInside lo hi span s0 e0).1 = span := by
  simp only [clampKeepInside]
  split_ifs <;> (try dsimp only) <;> refine ⟨by linarith, by linarith, by linarith⟩

/-- Helper: the safety swap is the identity on ordered pairs. -/
theorem clampSwap_of_le (p : ℚ × ℚ) (h : p.1 ≤ p.2) : clampSwap p = p := by
  simp only [clampSwap]
  split_ifs with h1
  · exact absurd h (by exact not_le.mpr h1)
  · rfl

/-- Helper: when the bounds are at least MIN_SPAN_MS wide, minimum-span
enforcement keeps an in-bounds window in bounds and guarantees a span of
at least MIN_SPAN_MS. -/
theorem clampEnforceMin_spec (lo hi : ℚ) (p : ℚ × ℚ) (hmin : MIN_SPAN_MS ≤ hi - lo)
    (hlo : lo ≤ p.1) (hhi : p.2 ≤ hi) :
    lo ≤ (clampEnforceMin lo hi p).1 ∧
    (clampEnforceMin lo hi p).2 ≤ hi ∧
    MIN_SPAN_MS ≤ (clampEnforceMin lo hi p).2 - (clampEnforceMin lo hi p).1 := by
  simp only [clampEnforceMin]
  split_ifs <;> (try dsimp only) <;> refine ⟨by linarith, by linarith, by linarith⟩

/-- Claim C1 (amended): on an ordered proposed window (start at most end)
and bounds whose full extent is at least MIN_SPAN_MS, clampDomain returns
an ordered window inside the bounds with span at least MIN_SPAN_MS, and
snaps to the full extent exactly when the proposed span covers it.  Both
hypotheses are necessary: dropping either puts the result outside the
bounds, as the counterexample shows on a sub-MIN_SPAN extent and on an
inverted proposed window. -/
theorem clampDomain_spec (s0 e0 lo hi : ℚ) (hse : s0 ≤ e0)
    (hmin : MIN_SPAN_MS ≤ hi - lo) :
    (clampDomain (s0, e0) (lo, hi)).1 ≤ (clampDomain (s0, e0) (lo, hi)).2 ∧
    lo ≤ (clampDomain (s0, e0) (lo, hi)).1 ∧
    (clampDomain (s0, e0) (lo, hi)).2 ≤ hi ∧
    MIN_SPAN_MS ≤ (clampDomain (s0, e0) (lo, hi)).2 - (clampDomain (s0, e0) (lo, hi)).1 ∧
    (hi - lo ≤ e0 - s0 → clampDomain (s0, e0) (lo, hi) = (lo, hi)) := by
  have hM : (0 : ℚ) < MIN_SPAN_MS := by norm_num [MIN_SPAN_MS]
  by_cases hbig : hi - lo ≤ e0 - s0
  · have hcd : clampDomain (s0, e0) (lo, hi) = (lo, hi) := by
      simp only [clampDomain]
      exact if_pos hbig
    rw [hcd]
    exact ⟨by show lo ≤ hi; linarith, le_rfl, le_rfl, by show MIN_SPAN_MS ≤ hi - lo; linarith,
      fun _ => rfl⟩
  · have hlt : e0 - s0 < hi - lo := not_le.mp hbig
    obtain ⟨h1, h2, h3⟩ := clampKeepInside_spec lo hi (e0 - s0) s0 e0 rfl hlt
    have hqord : (clampKeepInside lo hi (e0 - s0) s0 e0).1 ≤
        (clampKeepInside lo hi (e0 - s0) s0 e0).2 := by linarith
    have hswap : clampSwap (clampKeepInside lo hi (e0 - s0) s0 e0) =
        clampKeepInside lo hi (e0 - s0) s0 e0 :=
      clampSwap_of_le _ hqord
    obtain ⟨g1, g2, g3⟩ := clampEnforceMin_spec lo hi _ hmin h1 h2
    have hcd : clampDomain (s0, e0) (lo, hi) =
        clampEnforceMin lo hi (clampKeepInside lo hi (e0 - s0) s0 e0) := by
      simp only [clampDomain]
      rw [if_neg hbig, hswap]
    rw [hcd]
    exact ⟨by linarith, g1, g2, g3, fun h => absurd h hbig⟩

/-- Witness for clampDomain_spec at a concrete in-bounds window. -/
theorem clampDomain_spec_witness :
    MIN_SPAN_MS ≤ 2 * MIN_SPAN_MS ∧ MIN_SPAN_MS ≤ 10 * MIN_SPAN_MS - 0 ∧
    ((clampDomain (MIN_SPAN_MS, 2 * MIN_SPAN_MS) (0, 10 * MIN_SPAN_MS)).1 ≤
        (clampDomain (MIN_SPAN_MS, 2 * MIN_SPAN_MS) (0, 10 * MIN_SPAN_MS)).2 ∧
      0 ≤ (clampDomain (MIN_SPAN_MS, 2 * MIN_SPAN_MS) (0, 10 * MIN_SPAN_MS)).1 ∧
      (clampDomain (MIN_SPAN_MS, 2 * MIN_SPAN_MS) (0, 10 * MIN_SPAN_MS)).2 ≤ 10 * MIN_SPAN_MS ∧
      MIN_SPAN_MS ≤ (clampDomain (MIN_SPAN_MS, 2 * MIN_SPAN_MS) (0, 10 * MIN_SPAN_MS)).2 -
          (clampDomain (MIN_SPAN_MS, 2 * MIN_SPAN_MS) (0, 10 * MIN_SPAN_MS)).1 ∧
      (10 * MIN_SPAN_MS - 0 ≤ 2 * MIN_SPAN_MS - MIN_SPAN_MS →
        clampDomain (MIN_SPAN_MS, 2 * MIN_SPAN_MS) (0, 10 * MIN_SPAN_MS) =
          (0, 10 * MIN_SPAN_MS))) :=
  ⟨by norm_num [MIN_SPAN_MS], by norm_num [MIN_SPAN_MS],
    clampDomain_spec MIN_SPAN_MS (2 * MIN_SPAN_MS) 0 (10 * MIN_SPAN_MS)
      (by norm_num [MIN_SPAN_MS]) (by norm_num [MIN_SPAN_MS])⟩

/-- Counterexample for claim C1 as stated, in its two failure modes.
First: with bounds only 10 ms wide (shorter than MIN_SPAN_MS) and a
proposed window of span 3 ms, clampDomain returns the 30-day window ending
at the upper bound, which is neither the full extent nor contained in the
bounds.  Second: even with bounds 300 days wide, an inverted proposed
window of minus 60 days is only endpoint-swapped, never re-clamped, so the
result starts 60 days before the lower bound. -/
theorem clampDomain_outside_bounds_cex :
    (clampDomain (2, 5) (0, 10) = (10 - MIN_SPAN_MS, 10) ∧
      clampDomain (2, 5) (0, 10) ≠ (0, 10) ∧
      (clampDomain (2, 5) (0, 10)).1 < 0) ∧
    (clampDomain (0, -2 * MIN_SPAN_MS) (0, 10 * MIN_SPAN_MS) =
        (-2 * MIN_SPAN_MS, 0) ∧
      (clampDomain (0, -2 * MIN_SPAN_MS) (0, 10 * MIN_SPAN_MS)).1 < 0) := by
  refine ⟨⟨?_, ?_, ?_⟩, ?_, ?_⟩ <;>
    norm_num [clampDomain, clampKeepInside, clampSwap, clampEnforceMin, MIN_SPAN_MS]

/-- Helper: translating the full-extent window inside its own bounds is a
no-op. -/
theorem zoomKeepInside_full (lo hi span : ℚ) :
    zoomKeepInside lo hi span (lo, hi) = (lo, hi) := by
  simp [zoomKeepInside]

/-- Helper: the snap-and-translate pipeline of zoomBy lands exactly on the
full extent whenever the proposed span is at least the full span. -/
theorem zoomClamp_full (lo hi span c : ℚ) (h0 : lo ≤ hi) (hspan : hi - lo ≤ span) :
    zoomKeepInside lo hi span (zoomSnap lo hi span c) = (lo, hi) := by
  rcases lt_or_le (hi - lo) span with hlt | hle
  · have hs : zoomSnap lo hi span c = (lo, hi) := by
      simp only [zoomSnap]
      rw [if_pos (by linarith)]
    rw [hs, zoomKeepInside_full]
  · have heq : span = hi - lo := le_antisymm hle hspan
    have hs : zoomSnap lo hi span c = (c - span / 2, c + span / 2) := by
      simp only [zoomSnap]
      rw [if_neg (by linarith)]
    rw [hs]
    simp only [zoomKeepInside]
    split_ifs <;>
      exact Prod.ext_iff.mpr ⟨by dsimp only <;> linarith, by dsimp only <;> linarith⟩

/-- Helper: zoomByCore with a proposed span covering the bounds snaps to
the bounds, subject only to the minimum-span rejection. -/
theorem zoomByCore_ge (lo hi m d0 d1 f : ℚ) (a : Option ℚ) (h0 : lo ≤ hi)
    (hspan : hi - lo ≤ (d1 - d0) / f) :
    zoomByCore lo hi m d0 d1 f a =
      if hi - lo < m then ZoomOutcome.earlyReturn
      else ZoomOutcome.applyDomain lo hi true := by
  simp only [zoomByCore]
  rw [zoomClamp_full lo hi ((d1 - d0) / f) (a.getD ((d0 + d1) / 2)) h0 hspan]

/-- Claim C2 (amended, gesture-aware variant): once FULL_EXTENT is set, the
clamp bounds used by zoomBy are exactly FULL_EXTENT, no matter what the
currently filtered subset is, and a zoom-out whose proposed span reaches
the full span lands exactly on the full dataset extent. -/
theorem zoomBy_clamps_to_full_extent (lo hi d0 d1 f : ℚ) (fil fil2 : List ℚ)
    (a : Option ℚ) (hmin : MIN_SPAN_MS ≤ hi - lo)
    (hspan : hi - lo ≤ (d1 - d0) / f) (hfil : fil ≠ []) :
    zoomByBounds (some (lo, hi)) fil = (lo, hi) ∧
    zoomByBounds (some (lo, hi)) fil2 = zoomByBounds (some (lo, hi)) fil ∧
    zoomBy true fil (some (lo, hi)) d0 d1 f a = ZoomOutcome.applyDomain lo hi true := by
  have hM : (0 : ℚ) < MIN_SPAN_MS := by norm_num [MIN_SPAN_MS]
  have h0 : lo ≤ hi := by linarith
  refine ⟨rfl, rfl, ?_⟩
  simp only [zoomBy]
  rw [if_neg]
  · simp only [zoomByBounds, Option.getD_some]
    rw [zoomByCore_ge lo hi MIN_SPAN_MS d0 d1 f a h0 hspan,
      if_neg (not_lt.mpr hmin)]
  · rintro (h | h)
    · simp at h
    · exact hfil (List.length_eq_zero.mp h)

/-- Witness for zoomBy_clamps_to_full_extent: two different filtered
subsets, a zoom-out by a factor of two from the full extent. -/
theorem zoomBy_clamps_to_full_extent_witness :
    MIN_SPAN_MS ≤ 2 * MIN_SPAN_MS - 0 ∧
    2 * MIN_SPAN_MS - 0 ≤ (2 * MIN_SPAN_MS - 0) / (1 / 2) ∧
    ([(5 : ℚ)] ≠ []) ∧
    (zoomByBounds (some ((0 : ℚ), 2 * MIN_SPAN_MS)) [5] = (0, 2 * MIN_SPAN_MS) ∧
      zoomByBounds (some ((0 : ℚ), 2 * MIN_SPAN_MS)) [7, 9] =
        zoomByBounds (some ((0 : ℚ), 2 * MIN_SPAN_MS)) [5] ∧
      zoomBy true [5] (some (0, 2 * MIN_SPAN_MS)) 0 (2 * MIN_SPAN_MS) (1 / 2) none =
        ZoomOutcome.applyDomain 0 (2 * MIN_SPAN_MS) true) :=
  ⟨by norm_num [MIN_SPAN_MS], by norm_num [MIN_SPAN_MS], by simp,
    zoomBy_clamps_to_full_extent 0 (2 * MIN_SPAN_MS) 0 (2 * MIN_SPAN_MS) (1 / 2) [5] [7, 9]
      none (by norm_num [MIN_SPAN_MS]) (by norm_num [MIN_SPAN_MS]) (by simp)⟩

/-- Counterexample for claim C2 as stated: in the legacy variant
(src/scripts/app.js), zooming out clamps to the extent of the filtered
subset, which differs from the full dataset extent. -/
theorem appJs_zoomBy_filtered_bounds_cex :
    d3extentPair [0, 10000 * DAY_MS] = (0, 10000 * DAY_MS) ∧
    appJs_zoomBy true [100 * DAY_MS, 200 * DAY_MS] (100 * DAY_MS) (200 * DAY_MS) (1 / 2)
        none =
      ZoomOutcome.applyDomain (100 * DAY_MS) (200 * DAY_MS) true ∧
    ((100 * DAY_MS, 200 * DAY_MS) : ℚ × ℚ) ≠ (0, 10000 * DAY_MS) := by
  refine ⟨?_, ?_, ?_⟩
  · norm_num [d3extentPair, min_def, max_def, DAY_MS]
  · norm_num [appJs_zoomBy, zoomByCore, zoomSnap, zoomKeepInside, d3extentPair,
      min_def, max_def, DAY_MS]
  · norm_num [DAY_MS, Prod.mk.injEq]

/-- Claim C3: at a concrete wheel event, the gesture-aware variant grows
the span by exactly 1.1 on a positive delta (and shrinks it by 0.9 on a
negative one), while the legacy variant DIVIDES the span by the factor, so
a positive delta shrinks the span there — contradicting its own comment
that wheel-down zooms out. -/
theorem wheel_span_mapping_bug :
    (wheelProposed 100 1100 0 2200).2 - (wheelProposed 100 1100 0 2200).1 =
      2200 * (11 / 10) ∧
    (wheelProposed (-100) 1100 0 2200).2 - (wheelProposed (-100) 1100 0 2200).1 =
      2200 * (9 / 10) ∧
    appJsWheelNewSpan 100 0 2200 = 2000 ∧
    appJsWheelNewSpan 100 0 2200 < 2200 - 0 := by
  refine ⟨?_, ?_, ?_, ?_⟩ <;>
    norm_num [wheelProposed, wheelK, wheelFactor, appJsWheelNewSpan, min_def, max_def]

/-- Claim C9 (amended): with the domain already at the full extent, zoomBy
with a zoom-out factor falls through to a repack redraw of the unchanged
full-extent domain (or to the minimum-span early return when the full
extent is narrower than MIN_SPAN_MS); there is no at-full-extent early
return in zoomBy itself. -/
theorem zoomBy_at_full_extent_fallthrough (lo hi f : ℚ) (fil : List ℚ) (a : Option ℚ)
    (h0 : lo ≤ hi) (hf0 : 0 < f) (hf1 : f ≤ 1) (hfil : fil ≠ []) :
    (MIN_SPAN_MS ≤ hi - lo →
      zoomBy true fil (some (lo, hi)) lo hi f a = ZoomOutcome.applyDomain lo hi true) ∧
    (hi - lo < MIN_SPAN_MS →
      zoomBy true fil (some (lo, hi)) lo hi f a = ZoomOutcome.earlyReturn) := by
  have hspan : hi - lo ≤ (hi - lo) / f := by
    rw [le_div_iff hf0]
    exact mul_le_of_le_one_right (by linarith) hf1
  have hz : zoomBy true fil (some (lo, hi)) lo hi f a =
      if hi - lo < MIN_SPAN_MS then ZoomOutcome.earlyReturn
      else ZoomOutcome.applyDomain lo hi true := by
    simp only [zoomBy]
    rw [if_neg]
    · simp only [zoomByBounds, Option.getD_some]
      exact zoomByCore_ge lo hi MIN_SPAN_MS lo hi f a h0 hspan
    · rintro (h | h)
      · simp at h
      · exact hfil (List.length_eq_zero.mp h)
  constructor
  · intro h
    rw [hz, if_neg (not_lt.mpr h)]
  · intro h
    rw [hz, if_pos h]

/-- Witness for zoomBy_at_full_extent_fallthrough: zooming out by 1.25
from a full extent of sixty days redraws the same domain. -/
theorem zoomBy_at_full_extent_witness :
    ((0 : ℚ) ≤ 2 * MIN_SPAN_MS) ∧ ((0 : ℚ) < 4 / 5) ∧ ((4 / 5 : ℚ) ≤ 1) ∧
    ([(3 : ℚ)] ≠ []) ∧
    zoomBy true [3] (some (0, 2 * MIN_SPAN_MS)) 0 (2 * MIN_SPAN_MS) (4 / 5) none =
      ZoomOutcome.applyDomain 0 (2 * MIN_SPAN_MS) true :=
  ⟨by norm_num [MIN_SPAN_MS], by norm_num, by norm_num, by simp,
    (zoomBy_at_full_extent_fallthrough 0 (2 * MIN_SPAN_MS) (4 / 5) [3] none
      (by norm_num [MIN_SPAN_MS]) (by norm_num) (by norm_num) (by simp)).1
      (by norm_num [MIN_SPAN_MS])⟩

/-- Counterexample for claim C9 as stated: at a full extent of exactly
thirty days, zooming out by 1.25 does NOT take an early return — it falls
through to a repack redraw of the unchanged domain. -/
theorem zoomBy_full_extent_no_earlyReturn_cex :
    zoomBy true [0] (some (0, MIN_SPAN_MS)) 0 MIN_SPAN_MS (4 / 5) none =
      ZoomOutcome.applyDomain 0 MIN_SPAN_MS true ∧
    ZoomOutcome.applyDomain 0 MIN_SPAN_MS true ≠ ZoomOutcome.earlyReturn := by
  refine ⟨?_, fun hcon => ZoomOutcome.noConfusion hcon⟩
  norm_num [zoomBy, zoomByBounds, zoomByCore, zoomSnap, zoomKeepInside, MIN_SPAN_MS]

/-- Claim C10 (amended, gesture-aware variant): every domain that zoomBy
actually applies spans at least MIN_SPAN_MS — a zoom whose clamped result
would be narrower is rejected by the bare return, leaving the domain
unchanged rather than clamping the span up. -/
theorem zoomBy_rejects_below_min_span (hasScale : Bool) (fil : List ℚ)
    (fe : Option (ℚ × ℚ)) (d0 d1 f : ℚ) (a : Option ℚ) (s e : ℚ) (rp : Bool)
    (h : zoomBy hasScale fil fe d0 d1 f a = ZoomOutcome.applyDomain s e rp) :
    MIN_SPAN_MS ≤ e - s := by
  simp only [zoomBy] at h
  split_ifs at h with hg
  all_goals
    first
      | exact ZoomOutcome.noConfusion h
      | (simp only [zoomByCore] at h
         split_ifs at h with h2
         all_goals
           first
             | exact ZoomOutcome.noConfusion h
             | (simp only [ZoomOutcome.applyDomain.injEq] at h
                obtain ⟨ha, hb, -⟩ := h
                rw [← ha, ← hb]
                exact not_lt.mp h2))

/-- Witness for zoomBy_rejects_below_min_span: a zoom-in by 1.25 on a
hundred-times-MIN_SPAN domain is applied, and its span is above the
minimum. -/
theorem zoomBy_rejects_below_min_span_witness :
    zoomBy true [0] (some (0, 100 * MIN_SPAN_MS)) 0 (100 * MIN_SPAN_MS) (5 / 4) none =
      ZoomOutcome.applyDomain (10 * MIN_SPAN_MS) (90 * MIN_SPAN_MS) true ∧
    MIN_SPAN_MS ≤ 90 * MIN_SPAN_MS - 10 * MIN_SPAN_MS :=
  ⟨by norm_num [zoomBy, zoomByBounds, zoomByCore, zoomSnap, zoomKeepInside, MIN_SPAN_MS],
    zoomBy_rejects_below_min_span true [0] (some (0, 100 * MIN_SPAN_MS)) 0
      (100 * MIN_SPAN_MS) (5 / 4) none (10 * MIN_SPAN_MS) (90 * MIN_SPAN_MS) true
      (by norm_num [zoomBy, zoomByBounds, zoomByCore, zoomSnap, zoomKeepInside,
        MIN_SPAN_MS])⟩

/-- Counterexample for claim C10 as stated: in the legacy variant the
minimum span is one day, so a zoom landing on a ten-day window (well below
thirty days) is applied rather than rejected. -/
theorem appJs_zoomBy_applies_below_thirty_days_cex :
    appJs_zoomBy true [0, 100 * DAY_MS] 0 (20 * DAY_MS) 2 none =
      ZoomOutcome.applyDomain (5 * DAY_MS) (15 * DAY_MS) true ∧
    15 * DAY_MS - 5 * DAY_MS < MIN_SPAN_MS ∧
    ZoomOutcome.applyDomain (5 * DAY_MS) (15 * DAY_MS) true ≠ ZoomOutcome.earlyReturn := by
  refine ⟨?_, ?_, fun hcon => ZoomOutcome.noConfusion hcon⟩
  · norm_num [appJs_zoomBy, zoomByCore, zoomSnap, zoomKeepInside, d3extentPair,
      min_def, max_def, DAY_MS]
  · norm_num [DAY_MS, MIN_SPAN_MS]

/-- Claim C5: after a layout, a pure pan (repack false) leaves every cached
xOffset and ySim untouched, positions every circle at the new idealX plus
its cached offset, and therefore shifts every absolute x by the single
pixel pan delta dt * (r1 - r0) / (e - s). -/
theorem setDomainAndRedraw_pure_pan (simOut : Ev → ℚ × ℚ) (s e dt r0 r1 : ℚ)
    (evs : List Ev) (h : e ≠ s) :
    (setDomainAndRedraw false simOut (s + dt) (e + dt) r0 r1 evs).1 = evs ∧
    (setDomainAndRedraw false simOut (s + dt) (e + dt) r0 r1 evs).2 =
      evs.map (fun d => (scaleX (s + dt) (e + dt) r0 r1 d.date + d.xOffset, d.ySim)) ∧
    (setDomainAndRedraw false simOut (s + dt) (e + dt) r0 r1 evs).2 =
      evs.map (fun d =>
        (scaleX s e r0 r1 d.date + d.xOffset - dt * (r1 - r0) / (e - s), d.ySim)) := by
  have he : e - s ≠ 0 := sub_ne_zero.mpr h
  refine ⟨rfl, rfl, ?_⟩
  show evs.map _ = evs.map _
  apply List.map_congr_left
  intro d _
  have hkey : scaleX (s + dt) (e + dt) r0 r1 d.date =
      scaleX s e r0 r1 d.date - dt * (r1 - r0) / (e - s) := by
    simp only [scaleX]
    rw [show e + dt - (s + dt) = e - s from by ring]
    field_simp
    ring
  rw [hkey]
  exact Prod.ext_iff.mpr ⟨by ring, rfl⟩

/-- Witness for setDomainAndRedraw_pure_pan on a one-event list, panning a
[0, 100] domain by 10. -/
theorem setDomainAndRedraw_pure_pan_witness :
    ((100 : ℚ) ≠ 0) ∧
    ((setDomainAndRedraw false (fun _ => (0, 0)) (0 + 10) (100 + 10) 40 940
        ([⟨50, 3, 7⟩] : List Ev)).1 = [⟨50, 3, 7⟩] ∧
      (setDomainAndRedraw false (fun _ => (0, 0)) (0 + 10) (100 + 10) 40 940
          ([⟨50, 3, 7⟩] : List Ev)).2 =
        ([⟨50, 3, 7⟩] : List Ev).map
          (fun d => (scaleX (0 + 10) (100 + 10) 40 940 d.date + d.xOffset, d.ySim)) ∧
      (setDomainAndRedraw false (fun _ => (0, 0)) (0 + 10) (100 + 10) 40 940
          ([⟨50, 3, 7⟩] : List Ev)).2 =
        ([⟨50, 3, 7⟩] : List Ev).map (fun d =>
          (scaleX 0 100 40 940 d.date + d.xOffset - 10 * (940 - 40) / (100 - 0),
            d.ySim))) :=
  ⟨by norm_num,
    setDomainAndRedraw_pure_pan (fun _ => (0, 0)) 0 100 10 40 940 [⟨50, 3, 7⟩]
      (by norm_num)⟩

/-- Helper: a conflict-free row means every stored label on that row lies
strictly to one side of the new label's unpadded extent. -/
theorem conflictAt_false (placed : List Placed) (a1 a2 : ℚ) (lvl : ℕ)
    (h : conflictAt placed a1 a2 lvl = false) :
    ∀ l ∈ placed, l.level = lvl → (a2 < l.x1 ∨ l.x2 < a1) := by
  intro l hl hlvl
  by_contra hcon
  rcases not_or.mp hcon with ⟨hc1, hc2⟩
  have hc2b : ¬(a1 > l.x2) := hc2
  have htrue : conflictAt placed a1 a2 lvl = true := by
    simp only [conflictAt, List.any_eq_true]
    refine ⟨l, hl, ?_⟩
    rw [decide_eq_false hc1, decide_eq_false hc2b,
      decide_eq_false (not_not_intro hlvl.symm)]
    rfl
  rw [h] at htrue
  exact Bool.noConfusion htrue

/-- Helper: a conflicting row has a stored label on it. -/
theorem conflictAt_true_exists (placed : List Placed) (a1 a2 : ℚ) (lvl : ℕ)
    (h : conflictAt placed a1 a2 lvl = true) : ∃ l ∈ placed, l.level = lvl := by
  simp only [conflictAt, List.any_eq_true] at h
  obtain ⟨l, hl, hb⟩ := h
  refine ⟨l, hl, ?_⟩
  simp only [Bool.not_eq_true', Bool.or_eq_false_iff, decide_eq_false_iff_not, not_not,
    ne_eq] at hb
  exact hb.2.symm

/-- Helper: the fuelled search returns a conflict-free row whenever some
row within the fuel range is free. -/
theorem findLevelGo_free (placed : List Placed) (a1 a2 : ℚ) :
    ∀ fuel lvl, (∃ k, k < fuel ∧ conflictAt placed a1 a2 (lvl + k) = false) →
      conflictAt placed a1 a2 (findLevelGo placed a1 a2 fuel lvl) = false := by
  intro fuel
  induction fuel with
  | zero =>
    rintro lvl ⟨k, hk, -⟩
    exact absurd hk (Nat.not_lt_zero k)
  | succ n ih =>
    rintro lvl ⟨k, hk, hfree⟩
    simp only [findLevelGo]
    by_cases hc : conflictAt placed a1 a2 lvl = true
    · rw [if_pos hc]
      apply ih
      cases k with
      | zero =>
        rw [Nat.add_zero] at hfree
        rw [hfree] at hc
        exact absurd hc (by simp)
      | succ m =>
        refine ⟨m, by omega, ?_⟩
        rw [show lvl + 1 + m = lvl + (m + 1) from by omega]
        exact hfree
    · rw [if_neg hc]
      exact Bool.eq_false_iff.mpr hc

/-- Helper (pigeonhole): some row in 0..placed.length is conflict-free,
since each conflicting row pins a distinct stored label. -/
theorem exists_free_level (placed : List Placed) (a1 a2 : ℚ) :
    ∃ k, k < placed.length + 1 ∧ conflictAt placed a1 a2 k = false := by
  by_contra hcon
  push_neg at hcon
  have hall : ∀ k ∈ Finset.range (placed.length + 1), k ∈ placed.map Placed.level := by
    intro k hk
    have hc : conflictAt placed a1 a2 k = true :=
      Bool.ne_false_iff.mp (hcon k (Finset.mem_range.mp hk))
    obtain ⟨l, hl, hlvl⟩ := conflictAt_true_exists placed a1 a2 k hc
    exact List.mem_map.mpr ⟨l, hl, hlvl⟩
  have hsub : Finset.range (placed.length + 1) ⊆ (placed.map Placed.level).toFinset := by
    intro k hk
    exact List.mem_toFinset.mpr (hall k hk)
  have hcard1 : placed.length + 1 ≤ (placed.map Placed.level).toFinset.card := by
    simpa using Finset.card_le_card hsub
  have hcard2 : (placed.map Placed.level).toFinset.card ≤ placed.length := by
    simpa using (placed.map Placed.level).toFinset_card_le
  omega

/-- Helper: the row chosen by findLevel is conflict-free. -/
theorem findLevel_free (placed : List Placed) (a1 a2 : ℚ) :
    conflictAt placed a1 a2 (findLevel placed a1 a2) = false := by
  obtain ⟨k, hk, hfree⟩ := exists_free_level placed a1 a2
  exact findLevelGo_free placed a1 a2 (placed.length + 1) 0 ⟨k, hk, by simpa using hfree⟩

/-- Helper: one stacking step preserves pairwise same-row separation. -/
theorem placeStep_rowSep (x : ℚ → ℚ) (placed : List Placed) (d : AnnoEvent)
    (h : placed.Pairwise RowSep) : (placeStep x placed d).Pairwise RowSep := by
  have hsep := conflictAt_false placed
    (x d.date - (((labelText d.event).length * 7 : ℕ) : ℚ) / 2)
    (x d.date + (((labelText d.event).length * 7 : ℕ) : ℚ) / 2)
    (findLevel placed
      (x d.date - (((labelText d.event).length * 7 : ℕ) : ℚ) / 2)
      (x d.date + (((labelText d.event).length * 7 : ℕ) : ℚ) / 2))
    (findLevel_free placed _ _)
  simp only [placeStep]
  rw [List.pairwise_append]
  refine ⟨h, List.pairwise_singleton _ _, ?_⟩
  intro p hp q hq
  rw [List.mem_singleton] at hq
  subst hq
  simp only [RowSep]
  intro hlvl
  rcases hsep p hp hlvl with h1 | h2
  · exact Or.inl (by linarith)
  · exact Or.inr (by linarith)

/-- Claim C6 (amended): any two placements assigned to the same row are
separated in the sense the loop actually enforces — the later label's
unpadded extent clears the earlier label's padded extent, so unpadded
extents on one row never overlap (padded extents may overlap by up to the
padding); the output is a pure function of the input sequence. -/
theorem placeLabels_same_row_separated (x : ℚ → ℚ) (evs : List AnnoEvent) :
    (placeLabels x evs).Pairwise RowSep := by
  suffices hgen : ∀ (l : List AnnoEvent) (acc : List Placed), acc.Pairwise RowSep →
      (l.foldl (placeStep x) acc).Pairwise RowSep from hgen evs [] List.Pairwise.nil
  intro l
  induction l with
  | nil => exact fun acc hacc => hacc
  | cons d t ih => exact fun acc hacc => ih _ (placeStep_rowSep x acc d hacc)

/-- Helper: evaluation rule for one stacking step. -/
theorem placeStep_eval (x : ℚ → ℚ) (placed : List Placed) (d : AnnoEvent)
    (w a1 a2 : ℚ) (lvl : ℕ)
    (hw : (((labelText d.event).length * 7 : ℕ) : ℚ) = w)
    (ha1 : x d.date - w / 2 = a1) (ha2 : x d.date + w / 2 = a2)
    (hlvl : findLevel placed a1 a2 = lvl) :
    placeStep x placed d = placed ++ [⟨a1 - labelPadding, a2 + labelPadding, lvl⟩] := by
  simp only [placeStep, hw, ha1, ha2, hlvl]

/-- Counterexample for claim C6 as stated: two labels of width 14 at
positions 10 and 30 land on the same row 0 with PADDED extents from -1 to
21 and from 19 to 41, which overlap — the loop only keeps the second
label's unpadded extent clear of the first label's padded extent. -/
theorem placeLabels_padded_overlap_cex :
    placeLabels (fun t => t) [⟨10, "ab"⟩, ⟨30, "cd"⟩] =
      [⟨-1, 21, 0⟩, ⟨19, 41, 0⟩] ∧
    ¬((19 : ℚ) > 21 ∨ (41 : ℚ) < -1) := by
  constructor
  · have hw1 : (((labelText (AnnoEvent.mk 10 "ab").event).length * 7 : ℕ) : ℚ) = 14 := by
      rw [show ((labelText (AnnoEvent.mk 10 "ab").event).length * 7 : ℕ) = 14 from by decide]
      norm_num
    have hw2 : (((labelText (AnnoEvent.mk 30 "cd").event).length * 7 : ℕ) : ℚ) = 14 := by
      rw [show ((labelText (AnnoEvent.mk 30 "cd").event).length * 7 : ℕ) = 14 from by decide]
      norm_num
    have hs1 : placeStep (fun t => t) [] ⟨10, "ab"⟩ =
        [] ++ [⟨3 - labelPadding, 17 + labelPadding, 0⟩] :=
      placeStep_eval (fun t => t) [] ⟨10, "ab"⟩ 14 3 17 0 hw1 (by norm_num) (by norm_num) rfl
    have hs1b : placeStep (fun t => t) [] ⟨10, "ab"⟩ = [⟨-1, 21, 0⟩] := by
      rw [hs1]
      norm_num [labelPadding]
    have hlvl2 : findLevel [(⟨-1, 21, 0⟩ : Placed)] 23 37 = 0 := by decide
    have hs2 : placeStep (fun t => t) [⟨-1, 21, 0⟩] ⟨30, "cd"⟩ =
        [⟨-1, 21, 0⟩] ++ [⟨23 - labelPadding, 37 + labelPadding, 0⟩] :=
      placeStep_eval (fun t => t) [⟨-1, 21, 0⟩] ⟨30, "cd"⟩ 14 23 37 0 hw2 (by norm_num)
        (by norm_num) hlvl2
    calc placeLabels (fun t => t) [⟨10, "ab"⟩, ⟨30, "cd"⟩]
        = placeStep (fun t => t) (placeStep (fun t => t) [] ⟨10, "ab"⟩) ⟨30, "cd"⟩ := rfl
      _ = placeStep (fun t => t) [⟨-1, 21, 0⟩] ⟨30, "cd"⟩ := by rw [hs1b]
      _ = [⟨-1, 21, 0⟩] ++ [⟨23 - labelPadding, 37 + labelPadding, 0⟩] := hs2
      _ = [⟨-1, 21, 0⟩, ⟨19, 41, 0⟩] := by norm_num [labelPadding]
  · norm_num

/-- Claim C7: with no legend category active and key events disabled,
updateChart short-circuits to the empty result, whatever the topics,
sources, key-events-only toggle and search term are. -/
theorem updateChart_no_active_cats_empty (raw : List Rec) (c : Crit)
    (hb : c.selectedCats.contains "biological" = false)
    (hc : c.selectedCats.contains "chemical" = false)
    (hm : c.selectedCats.contains "multi" = false)
    (hk : c.selectedCats.contains "key" = false) :
    updateChartFiltered raw c = [] := by
  have hb2 : "biological" ∉ c.selectedCats := by simpa using hb
  have hc2 : "chemical" ∉ c.selectedCats := by simpa using hc
  have hm2 : "multi" ∉ c.selectedCats := by simpa using hm
  have hk2 : "key" ∉ c.selectedCats := by simpa using hk
  simp [updateChartFiltered, hb2, hc2, hm2, hk2]

/-- Witness for updateChart_no_active_cats_empty on two concrete records
with permissive topic, source and search criteria. -/
theorem updateChart_no_active_cats_empty_witness :
    critNothing.selectedCats.contains "biological" = false ∧
    critNothing.selectedCats.contains "chemical" = false ∧
    critNothing.selectedCats.contains "multi" = false ∧
    critNothing.selectedCats.contains "key" = false ∧
    updateChartFiltered [recTopical, recTopicless] critNothing = [] :=
  ⟨rfl, rfl, rfl, rfl,
    updateChart_no_active_cats_empty [recTopical, recTopicless] critNothing rfl rfl rfl rfl⟩

/-- Helper: with some options present and all of them selected, updateChart
computes the same result as with the topic dropdown absent. -/
theorem updateChart_topic_bypass (raw : List Rec) (c : Crit)
    (h1 : 0 < c.topicListCount) (h2 : c.selectedTopics.length = c.topicListCount) :
    updateChartFiltered raw c =
      updateChartFiltered raw { c with topicListCount := 0, selectedTopics := [] } := by
  have hlen : c.selectedTopics.length ≠ 0 := by omega
  have hlen0 : (c.selectedTopics.length == 0) = false := by
    simpa using hlen
  have hut : decide (0 < c.topicListCount) = true := decide_eq_true h1
  have hut0 : decide ((0 : ℕ) < 0) = false := rfl
  have hall : (c.selectedTopics.length == c.topicListCount) = true := by
    simpa using h2
  by_cases hg : (((["biological", "chemical", "multi"].filter
      (fun k => c.selectedCats.contains k)).length == 0 &&
      !(c.selectedCats.contains "key")) = true)
  · simp only [updateChartFiltered]
    dsimp only
    rw [if_pos hg, if_pos hg]
  · simp only [updateChartFiltered]
    dsimp only
    rw [if_neg hg, if_neg hg]
    apply List.filter_congr
    intro d _
    simp [recPasses, topicMatchB, hut, hut0, hlen0, hall]

/-- Claim C8: with every topic option individually selected, the filtered
set does not depend on which full selection list is supplied, it equals
the result with the topic dropdown bypassed entirely, and the topic clause
passes every record — in particular zero-topic events are included. -/
theorem updateChart_select_all_topics (raw : List Rec) (c : Crit)
    (h1 : 0 < c.topicListCount) (h2 : c.selectedTopics.length = c.topicListCount) :
    (∀ ts2 : List String, ts2.length = c.topicListCount →
      updateChartFiltered raw { c with selectedTopics := ts2 } =
        updateChartFiltered raw c) ∧
    updateChartFiltered raw c =
      updateChartFiltered raw { c with topicListCount := 0, selectedTopics := [] } ∧
    ∀ d : Rec, topicMatchB (decide (0 < c.topicListCount)) c.selectedTopics
      (c.selectedTopics.length == c.topicListCount) d = true := by
  have hlen0 : (c.selectedTopics.length == 0) = false := by
    have : c.selectedTopics.length ≠ 0 := by omega
    simpa using this
  have hall : (c.selectedTopics.length == c.topicListCount) = true := by
    simpa using h2
  refine ⟨?_, updateChart_topic_bypass raw c h1 h2, ?_⟩
  · intro ts2 hts2
    exact (updateChart_topic_bypass raw { c with selectedTopics := ts2 } h1 hts2).trans
      (updateChart_topic_bypass raw c h1 h2).symm
  · intro d
    rw [decide_eq_true h1, hall]
    simp [topicMatchB, hlen0]

/-- Witness for updateChart_select_all_topics: one topic option, selected,
over one topical and one zero-topic record. -/
theorem updateChart_select_all_topics_witness :
    0 < critAllTopics.topicListCount ∧
    critAllTopics.selectedTopics.length = critAllTopics.topicListCount ∧
    ((∀ ts2 : List String, ts2.length = critAllTopics.topicListCount →
        updateChartFiltered [recTopical, recTopicless]
            { critAllTopics with selectedTopics := ts2 } =
          updateChartFiltered [recTopical, recTopicless] critAllTopics) ∧
      updateChartFiltered [recTopical, recTopicless] critAllTopics =
        updateChartFiltered [recTopical, recTopicless]
          { critAllTopics with topicListCount := 0, selectedTopics := [] } ∧
      ∀ d : Rec, topicMatchB (decide (0 < critAllTopics.topicListCount))
        critAllTopics.selectedTopics
        (critAllTopics.selectedTopics.length == critAllTopics.topicListCount) d = true) :=
  ⟨by decide, rfl,
    updateChart_select_all_topics [recTopical, recTopicless] critAllTopics (by decide) rfl⟩
